import Mathlib

/-
Shallow embedding, in Lean 4, of the deterministic arithmetic core of the
predicto/buildsmart estimator (src/services/reportService.ts): the
assumption adjuster (applyAssumptions), the scenario deriver
(deriveScenarioFromBase with its inner getCategoryRatio), and the cashflow
normalizer (validateCashflow).  JavaScript numbers are modelled as exact
rationals; Math.round is floor (x + 1/2); the one unguarded division in
applyAssumptions is modelled with an Option, none standing for the
non-finite (Infinity/NaN) value JavaScript produces when the divisor is 0.
-/

namespace Predicto

/-- JS Math.round: rounds half up, i.e. floor (x + 1/2). -/
def jsRound (q : ℚ) : ℤ := ⌊q + 1/2⌋

/-- JS Math.ceil: the smallest integer at least q, written as a negated
floor. -/
def jsCeil (q : ℚ) : ℤ := -⌊-q⌋

/-- Lower-case a string character-wise (categories and tier names are ASCII,
so JS String.prototype.toLowerCase agrees with Char.toLower). -/
def strLower (s : String) : String := String.mk (s.data.map Char.toLower)

/-- Does the pattern occur at the head of the list (List-level prefix test)? -/
def leadMatch : List Char → List Char → Bool
  | [], _ => true
  | _ :: _, [] => false
  | p :: ps, c :: cs => p == c && leadMatch ps cs

/-- Naive substring search: does pat occur anywhere in the list? -/
def hasSub (pat : List Char) : List Char → Bool
  | [] => pat.isEmpty
  | c :: cs => leadMatch pat (c :: cs) || hasSub pat cs

/-- JS category.toLowerCase().includes(pat): case-insensitive substring test
used throughout the category classification code. -/
def catHas (category pat : String) : Bool :=
  hasSub pat.data (strLower category).data

/-- Fuel-indexed worker for replaceAll (structural recursion on the fuel so
that the kernel can evaluate it; fuel = length of the scanned list always
suffices because each step consumes at least one character). -/
def replaceAllAux (pat repl : List Char) : ℕ → List Char → List Char
  | 0, s => s
  | _ + 1, [] => []
  | fuel + 1, c :: cs =>
    if !pat.isEmpty && leadMatch pat (c :: cs) then
      repl ++ replaceAllAux pat repl fuel (List.drop pat.length (c :: cs))
    else
      c :: replaceAllAux pat repl fuel cs

/-- JS String.prototype.replace with a global plain-text pattern: replace
every non-overlapping occurrence, left to right, scanning past each
replacement. -/
def replaceAll (pat repl s : List Char) : List Char :=
  replaceAllAux pat repl s.length s

/-- CostItem from src (category, cost, description, optional details). -/
structure CostItem where
  category : String
  cost : ℚ
  description : String
  details : Option (List String)
deriving DecidableEq

/-- CashFlowMonth from src. -/
structure CashFlowMonth where
  month : ℤ
  amount : ℚ
  phase : String
deriving DecidableEq

/-- RiskItem from src (impact is a string enum Low|Medium|High). -/
structure RiskItem where
  risk : String
  impact : String
  mitigation : String
deriving DecidableEq

/-- EstimationResult from src. -/
structure EstimationResult where
  currencySymbol : String
  totalEstimatedCost : ℚ
  breakdown : List CostItem
  cashflow : List CashFlowMonth
  risks : List RiskItem
  confidenceScore : ℚ
  confidenceReason : String
  efficiencyTips : List String
  summary : String
deriving DecidableEq

/-- EditableAssumptions from src. -/
structure EditableAssumptions where
  materialCostMultiplier : ℚ
  laborRateMultiplier : ℚ
  equipmentCostMultiplier : ℚ
  contingencyPercentage : ℚ
deriving DecidableEq

/-- QualityLevel enum from src (string values Economy, Standard, Premium). -/
inductive QualityLevel
  | ECONOMY
  | STANDARD
  | PREMIUM
deriving DecidableEq

/-- The string value of a QualityLevel enum member. -/
def QualityLevel.str : QualityLevel → String
  | .ECONOMY => "Economy"
  | .STANDARD => "Standard"
  | .PREMIUM => "Premium"

/-- Sum of the cost fields of a breakdown (the reduce over item.cost). -/
def sumCost (l : List CostItem) : ℚ := (l.map (fun i => i.cost)).sum

/-- Sum of the amount fields of a cashflow (the reduce over item.amount). -/
def sumAmounts (l : List CashFlowMonth) : ℚ := (l.map (fun m => m.amount)).sum

/-- The coarse overall quality factors (Economy 0.75, Standard 1.0,
Premium 1.35) from deriveScenarioFromBase. -/
def factors : QualityLevel → ℚ
  | .ECONOMY => 75/100
  | .STANDARD => 1
  | .PREMIUM => 135/100

/-- The coarse conversion ratio factors[target] / factors[base] computed (but
never used for the breakdown) in deriveScenarioFromBase. -/
def conversionFactor (baseQuality targetQuality : QualityLevel) : ℚ :=
  factors targetQuality / factors baseQuality

/-- categoryMultipliers.material from deriveScenarioFromBase. -/
def materialMult : QualityLevel → ℚ
  | .ECONOMY => 7/10
  | .STANDARD => 1
  | .PREMIUM => 15/10

/-- categoryMultipliers.labor from deriveScenarioFromBase. -/
def laborMult : QualityLevel → ℚ
  | .ECONOMY => 8/10
  | .STANDARD => 1
  | .PREMIUM => 13/10

/-- categoryMultipliers.equipment from deriveScenarioFromBase. -/
def equipmentMult : QualityLevel → ℚ
  | .ECONOMY => 9/10
  | .STANDARD => 1
  | .PREMIUM => 11/10

/-- categoryMultipliers.default from deriveScenarioFromBase. -/
def defaultMult : QualityLevel → ℚ
  | .ECONOMY => 75/100
  | .STANDARD => 1
  | .PREMIUM => 135/100

/-- getCategoryRatio from deriveScenarioFromBase: classify the category by
case-insensitive substring, then return table[type][target] /
table[type][base]; permits and contingency return 1.0 directly. -/
def getCategoryRatioQ (baseQuality targetQuality : QualityLevel)
    (category : String) : ℚ :=
  if catHas category ("material") then
    materialMult targetQuality / materialMult baseQuality
  else if catHas category ("labor") || catHas category ("wage")
      || catHas category ("manpower") then
    laborMult targetQuality / laborMult baseQuality
  else if catHas category ("equipment") || catHas category ("tool") then
    equipmentMult targetQuality / equipmentMult baseQuality
  else if catHas category ("permit") || catHas category ("approval") then
    1
  else if catHas category ("contingency") then
    1
  else
    defaultMult targetQuality / defaultMult baseQuality

/-- The double text substitution .replace(RegExp(baseQuality, g), target)
followed by the same on the lower-cased tier names. -/
def replaceQuality (baseQuality targetQuality : QualityLevel)
    (s : String) : String :=
  let s1 := String.mk
    (replaceAll baseQuality.str.data targetQuality.str.data s.data)
  String.mk (replaceAll (strLower baseQuality.str).data
    (strLower targetQuality.str).data s1.data)

/-- deriveScenarioFromBase from src/services/reportService.ts (lines
293-378): identity when the tiers coincide; otherwise scale each breakdown
item by its category ratio and round, recompute the total as the sum of the
adjusted items, rescale the cashflow by newTotal/oldTotal (ratio 1 when the
old total is not positive), substitute tier names in the texts, and replace
confidenceReason with a lineage note. -/
def deriveScenarioFromBase (base : EstimationResult)
    (baseQuality targetQuality : QualityLevel) : EstimationResult :=
  if baseQuality = targetQuality then base
  else
    let newBreakdown := base.breakdown.map (fun item =>
      { item with
        cost := (jsRound (item.cost
          * getCategoryRatioQ baseQuality targetQuality item.category) : ℚ)
        description := replaceQuality baseQuality targetQuality
          item.description })
    let newTotal := sumCost newBreakdown
    let totalScale : ℚ :=
      if 0 < base.totalEstimatedCost then newTotal / base.totalEstimatedCost
      else 1
    let newCashflow := base.cashflow.map (fun c =>
      { c with amount := (jsRound (c.amount * totalScale) : ℚ) })
    { base with
      totalEstimatedCost := newTotal
      breakdown := newBreakdown
      cashflow := newCashflow
      summary := replaceQuality baseQuality targetQuality base.summary
      confidenceReason := "Derived from " ++ baseQuality.str ++ " ("
        ++ toString base.confidenceScore ++ "%) for comparison" }

/-- A cashflow month in the output of applyAssumptions.  The amount is an
Option: the source computes amount * (adjustedTotal / totalEstimatedCost)
with no guard on the divisor, so when the base total is 0 the JavaScript
value is non-finite (Infinity or NaN); none models that non-finite value. -/
structure AdjCashFlowMonth where
  month : ℤ
  amount : Option ℚ
  phase : String
deriving DecidableEq

/-- The output shape of applyAssumptions: an EstimationResult whose cashflow
amounts may be non-finite (see AdjCashFlowMonth). -/
structure AdjustedEstimation where
  currencySymbol : String
  totalEstimatedCost : ℚ
  breakdown : List CostItem
  cashflow : List AdjCashFlowMonth
  risks : List RiskItem
  confidenceScore : ℚ
  confidenceReason : String
  efficiencyTips : List String
  summary : String
deriving DecidableEq

/-- The per-item multiplier step of applyAssumptions: material, labor or
manpower, and equipment categories pick their multiplier; everything else
(including contingency) keeps multiplier 1.0. -/
def adjustItem (assumptions : EditableAssumptions) (item : CostItem) :
    CostItem :=
  let multiplier : ℚ :=
    if catHas item.category ("material") then
      assumptions.materialCostMultiplier
    else if catHas item.category ("labor")
        || catHas item.category ("manpower") then
      assumptions.laborRateMultiplier
    else if catHas item.category ("equipment") then
      assumptions.equipmentCostMultiplier
    else 1
  { item with cost := item.cost * multiplier }

/-- applyAssumptions from src/services/reportService.ts (lines 417-465):
multiply each breakdown item by its category multiplier; total = sum of the
adjusted items (or, when the breakdown is empty, the base total times the
product of the three multipliers); then multiply the total by
(1 + contingencyPercentage/100); finally rescale every cashflow amount by
adjustedTotal / base total — an unguarded division, non-finite (none) when
the base total is 0. -/
def applyAssumptions (baseEstimation : EstimationResult)
    (assumptions : EditableAssumptions) : AdjustedEstimation :=
  let adjustedBreakdown := baseEstimation.breakdown.map (adjustItem assumptions)
  let preContingencyTotal : ℚ :=
    if 0 < adjustedBreakdown.length then sumCost adjustedBreakdown
    else baseEstimation.totalEstimatedCost
      * (assumptions.materialCostMultiplier * assumptions.laborRateMultiplier
        * assumptions.equipmentCostMultiplier)
  let adjustedTotal :=
    preContingencyTotal * (1 + assumptions.contingencyPercentage / 100)
  let totalMultiplier : Option ℚ :=
    if baseEstimation.totalEstimatedCost = 0 then none
    else some (adjustedTotal / baseEstimation.totalEstimatedCost)
  let adjustedCashflow := baseEstimation.cashflow.map (fun m =>
    AdjCashFlowMonth.mk m.month
      (totalMultiplier.map (fun r => m.amount * r)) m.phase)
  { currencySymbol := baseEstimation.currencySymbol
    totalEstimatedCost := adjustedTotal
    breakdown := adjustedBreakdown
    cashflow := adjustedCashflow
    risks := baseEstimation.risks
    confidenceScore := baseEstimation.confidenceScore
    confidenceReason := baseEstimation.confidenceReason
    efficiencyTips := baseEstimation.efficiencyTips
    summary := baseEstimation.summary ++ " (Adjusted with assumptions)" }

/-- phaseDistribution[k].percentage from validateCashflow (the 5-phase
weight table for 4-6 month projects; the key is always clamped to 1..5). -/
def phasePct (k : ℤ) : ℚ :=
  if k = 1 then 15/100
  else if k = 2 then 25/100
  else if k = 3 then 30/100
  else if k = 4 then 20/100
  else 10/100

/-- phaseDistribution[k].phase from validateCashflow. -/
def phaseName (k : ℤ) : String :=
  if k = 1 then "Site preparation & permits"
  else if k = 2 then "Foundation & structural work"
  else if k = 3 then "Building envelope & utilities"
  else if k = 4 then "Interior finishing"
  else "Final inspections & handover"

/-- The per-month percentage computed by the loop body of validateCashflow:
short (at most 3 months) front-loaded split, medium (4-6 months) phase table
divided by ceil(timelineMonths/5), long (more than 6 months) flat 0.20 /
0.60-spread / 0.10 shape. -/
def monthPercentage (timelineMonths month : ℕ) : ℚ :=
  if timelineMonths ≤ 3 then
    if month = 1 then 40/100 else if month = 2 then 35/100 else 25/100
  else if timelineMonths ≤ 6 then
    let phaseKey := min 5 (jsCeil ((month : ℚ) / (timelineMonths : ℚ) * 5))
    phasePct phaseKey / (jsCeil ((timelineMonths : ℚ) / 5) : ℚ)
  else
    if month ≤ 2 then 20/100
    else if month ≤ timelineMonths - 2 then
      (60/100) / ((timelineMonths : ℚ) - 4)
    else 10/100

/-- The per-month phase label computed by the loop body of validateCashflow. -/
def monthPhaseLabel (timelineMonths month : ℕ) : String :=
  if timelineMonths ≤ 3 then
    if month = 1 then "Setup & major work"
    else if month = 2 then "Completion work"
    else "Final touches"
  else if timelineMonths ≤ 6 then
    phaseName (min 5 (jsCeil ((month : ℚ) / (timelineMonths : ℚ) * 5)))
  else
    if month ≤ 2 then "Initial setup & foundation"
    else if month ≤ timelineMonths - 2 then "Main construction work"
    else "Finishing & handover"

/-- One generated cashflow entry of validateCashflow (amount rounded). -/
def genMonth (totalCost : ℚ) (timelineMonths month : ℕ) : CashFlowMonth :=
  { month := (month : ℤ)
    amount := (jsRound (totalCost * monthPercentage timelineMonths month) : ℚ)
    phase := monthPhaseLabel timelineMonths month }

/-- The newCashflow list built by the loop of validateCashflow (months
1..timelineMonths). -/
def genCashflow (totalCost : ℚ) (timelineMonths : ℕ) : List CashFlowMonth :=
  (List.range timelineMonths).map (fun i => genMonth totalCost timelineMonths (i + 1))

/-- newCashflow[newCashflow.length - 1].amount += difference: add a
correction to the amount of the last entry of a list. -/
def addToLast (d : ℚ) : List CashFlowMonth → List CashFlowMonth
  | [] => []
  | [m] => [{ m with amount := m.amount + d }]
  | m :: m2 :: rest => m :: addToLast d (m2 :: rest)

/-- validateCashflow from src/services/reportService.ts (lines 2319-2378):
if the cashflow length disagrees with timelineMonths, regenerate a
phase-weighted cashflow and push the rounding residual onto the last month;
otherwise return the result unchanged. -/
def validateCashflow (result : EstimationResult) (timelineMonths : ℕ) :
    EstimationResult :=
  if result.cashflow.length ≠ timelineMonths then
    let totalCost := result.totalEstimatedCost
    let newCashflow := genCashflow totalCost timelineMonths
    let calculatedTotal := sumAmounts newCashflow
    let difference := totalCost - calculatedTotal
    let finalCashflow :=
      if difference ≠ 0 then addToLast difference newCashflow else newCashflow
    { result with cashflow := finalCashflow }
  else result

end Predicto

namespace Predicto

/-- Default assumptions of the UI: multipliers 1.0 and contingency 10%. -/
def defaultAssumptions : EditableAssumptions :=
  { materialCostMultiplier := 1
    laborRateMultiplier := 1
    equipmentCostMultiplier := 1
    contingencyPercentage := 10 }

/-- The concrete Standard-quality fixture of the spec's fixed-input
end-to-end scenario test: total 1000000, five breakdown items, six cashflow
months summing to 1000000. -/
def fixtureStandard : EstimationResult :=
  { currencySymbol := "$"
    totalEstimatedCost := 1000000
    breakdown := [
      { category := "Materials", cost := 450000,
        description := "Cement and steel", details := none },
      { category := "Labor", cost := 300000,
        description := "Site crew", details := none },
      { category := "Equipment", cost := 100000,
        description := "Machinery rental", details := none },
      { category := "Permits", cost := 50000,
        description := "Approvals", details := none },
      { category := "Contingency", cost := 100000,
        description := "Reserve", details := none }]
    cashflow := [
      { month := 1, amount := 150000, phase := "Site preparation" },
      { month := 2, amount := 250000, phase := "Foundation" },
      { month := 3, amount := 300000, phase := "Envelope" },
      { month := 4, amount := 200000, phase := "Interior" },
      { month := 5, amount := 50000, phase := "Finishing" },
      { month := 6, amount := 50000, phase := "Handover" }]
    risks := []
    confidenceScore := 85
    confidenceReason := "Based on market data"
    efficiencyTips := []
    summary := "A Standard quality build" }

/-- A one-item base whose breakdown sums to its total, used against the
adjuster sum invariant. -/
def oneItemBase : EstimationResult :=
  { currencySymbol := "$"
    totalEstimatedCost := 1000
    breakdown := [
      { category := "Materials", cost := 1000,
        description := "Cement", details := none }]
    cashflow := []
    risks := []
    confidenceScore := 80
    confidenceReason := "r"
    efficiencyTips := []
    summary := "s" }

/-- A base with a Contingency Buffer item, used against the contingency
recompute claim. -/
def contingencyBase : EstimationResult :=
  { currencySymbol := "$"
    totalEstimatedCost := 1500
    breakdown := [
      { category := "Materials", cost := 1000,
        description := "Cement", details := none },
      { category := "Contingency Buffer", cost := 500,
        description := "Reserve", details := none }]
    cashflow := []
    risks := []
    confidenceScore := 80
    confidenceReason := "r"
    efficiencyTips := []
    summary := "s" }

/-- A base whose cashflow length already equals the requested timeline but
whose months are misnumbered and whose amounts do not sum to the total. -/
def passThroughBase : EstimationResult :=
  { currencySymbol := "$"
    totalEstimatedCost := 1000
    breakdown := []
    cashflow := [{ month := 5, amount := 7, phase := "x" }]
    risks := []
    confidenceScore := 80
    confidenceReason := "r"
    efficiencyTips := []
    summary := "s" }

/-- A base with totalEstimatedCost 0 but a non-empty cashflow, used against
the division-by-zero claim. -/
def zeroTotalBase : EstimationResult :=
  { currencySymbol := "$"
    totalEstimatedCost := 0
    breakdown := [
      { category := "Materials", cost := 100,
        description := "Cement", details := none }]
    cashflow := [{ month := 1, amount := 50, phase := "Phase 1" }]
    risks := []
    confidenceScore := 80
    confidenceReason := "r"
    efficiencyTips := []
    summary := "s" }

/-- A base with an empty cashflow, used as a regeneration witness. -/
def emptyCashflowBase : EstimationResult :=
  { currencySymbol := "$"
    totalEstimatedCost := 100
    breakdown := []
    cashflow := []
    risks := []
    confidenceScore := 80
    confidenceReason := "r"
    efficiencyTips := []
    summary := "s" }

/-- The length of addToLast's output equals the input length. -/
theorem addToLast_length (d : ℚ) (l : List CashFlowMonth) :
    (addToLast d l).length = l.length := by
  induction l with
  | nil => rfl
  | cons m rest ih =>
    cases rest with
    | nil => rfl
    | cons m2 r2 => simp [addToLast] at ih ⊢; omega

/-- addToLast leaves every month field unchanged. -/
theorem addToLast_months (d : ℚ) (l : List CashFlowMonth) :
    (addToLast d l).map (fun m => m.month) = l.map (fun m => m.month) := by
  induction l with
  | nil => rfl
  | cons m rest ih =>
    cases rest with
    | nil => rfl
    | cons m2 r2 => simp [addToLast] at ih ⊢; exact ih

/-- addToLast adds exactly d to the total amount of a non-empty list. -/
theorem addToLast_sum (d : ℚ) (l : List CashFlowMonth) (h : l ≠ []) :
    sumAmounts (addToLast d l) = sumAmounts l + d := by
  induction l with
  | nil => cases h rfl
  | cons m rest ih =>
    cases rest with
    | nil => simp [addToLast, sumAmounts]
    | cons m2 r2 =>
      have ih2 := ih (by simp)
      simp [addToLast, sumAmounts] at ih2 ⊢
      rw [ih2]
      ring

/-- The generated cashflow has one entry per month. -/
theorem genCashflow_length (t : ℚ) (N : ℕ) : (genCashflow t N).length = N := by
  simp [genCashflow]

/-- The generated cashflow is numbered 1..N in order. -/
theorem genCashflow_months (t : ℚ) (N : ℕ) :
    (genCashflow t N).map (fun m => m.month)
      = (List.range N).map (fun i : ℕ => (i : ℤ) + 1) := by
  simp only [genCashflow, List.map_map]
  refine List.map_congr_left ?_
  intro i _
  simp [genMonth]

end Predicto

namespace Predicto

/-- C1 counterexample: a base whose single Materials item sums to its total,
with the default (valid) assumptions, after applyAssumptions has breakdown
sum 1000 but total 1100 — off by 100, far beyond 1 unit of rounding. -/
theorem c1_sum_invariant_cex :
    sumCost oneItemBase.breakdown = oneItemBase.totalEstimatedCost ∧
    0 < defaultAssumptions.materialCostMultiplier ∧
    0 < defaultAssumptions.laborRateMultiplier ∧
    0 < defaultAssumptions.equipmentCostMultiplier ∧
    0 ≤ defaultAssumptions.contingencyPercentage ∧
    defaultAssumptions.contingencyPercentage ≤ 100 ∧
    ¬ |sumCost (applyAssumptions oneItemBase defaultAssumptions).breakdown
        - (applyAssumptions oneItemBase defaultAssumptions).totalEstimatedCost|
      ≤ 1 := by
  have h1 : sumCost (applyAssumptions oneItemBase defaultAssumptions).breakdown
      = 1000 := by
    simp +decide [applyAssumptions, adjustItem, oneItemBase,
      defaultAssumptions, sumCost]
  have h2 : (applyAssumptions oneItemBase defaultAssumptions).totalEstimatedCost
      = 1100 := by
    simp +decide [applyAssumptions, adjustItem, oneItemBase,
      defaultAssumptions, sumCost]
    norm_num
  refine ⟨by norm_num [sumCost, oneItemBase], by norm_num [defaultAssumptions],
    by norm_num [defaultAssumptions], by norm_num [defaultAssumptions],
    by norm_num [defaultAssumptions], by norm_num [defaultAssumptions], ?_⟩
  rw [h1, h2, abs_le]
  norm_num

/-- C1 amended: for any base whose breakdown sums to its total,
applyAssumptions instead satisfies totalEstimatedCost =
(1 + contingencyPercentage/100) * sum(breakdown costs) exactly; the
breakdown sum equals the total only when contingencyPercentage is 0. -/
theorem c1_total_is_surcharged_sum (base : EstimationResult)
    (a : EditableAssumptions)
    (hsum : sumCost base.breakdown = base.totalEstimatedCost)
    (hmat : 0 < a.materialCostMultiplier) (hlab : 0 < a.laborRateMultiplier)
    (heqp : 0 < a.equipmentCostMultiplier)
    (hp0 : 0 ≤ a.contingencyPercentage)
    (hp1 : a.contingencyPercentage ≤ 100) :
    (applyAssumptions base a).totalEstimatedCost
      = (1 + a.contingencyPercentage / 100)
        * sumCost (applyAssumptions base a).breakdown := by
  cases hb : base.breakdown with
  | nil =>
    have h0 : base.totalEstimatedCost = 0 := by
      rw [← hsum, hb]; simp [sumCost]
    simp [applyAssumptions, hb, h0, sumCost]
  | cons x xs =>
    simp [applyAssumptions, hb, sumCost]
    ring

/-- C1 witness at the Standard fixture with the default assumptions. -/
theorem c1_total_is_surcharged_sum_witness :
    (applyAssumptions fixtureStandard defaultAssumptions).totalEstimatedCost
      = (1 + defaultAssumptions.contingencyPercentage / 100)
        * sumCost (applyAssumptions fixtureStandard defaultAssumptions).breakdown :=
  c1_total_is_surcharged_sum fixtureStandard defaultAssumptions
    (by norm_num [sumCost, fixtureStandard])
    (by norm_num [defaultAssumptions]) (by norm_num [defaultAssumptions])
    (by norm_num [defaultAssumptions]) (by norm_num [defaultAssumptions])
    (by norm_num [defaultAssumptions])

/-- C2 counterexample: with a Contingency Buffer item of 500 beside a
Materials item of 1000 and contingencyPercentage 10, applyAssumptions keeps
the contingency cost at 500; the claimed recomputed value 10% * 1000 = 100
differs. -/
theorem c2_contingency_recompute_cex :
    ((applyAssumptions contingencyBase defaultAssumptions).breakdown.map
      (fun i => i.cost)) = [1000, 500] ∧
    defaultAssumptions.contingencyPercentage = 10 ∧
    (500 : ℚ) ≠ (10 / 100) * 1000 := by
  refine ⟨?_, rfl, by norm_num⟩
  simp +decide [applyAssumptions, adjustItem, contingencyBase,
    defaultAssumptions]

/-- C2 amended: a breakdown item classified as contingency (its category
contains the text contingency and none of the multiplier keywords material,
labor, manpower, equipment) is left with its previous cost unchanged by
applyAssumptions; contingencyPercentage instead multiplies the whole total
as a (1 + p/100) surcharge. -/
theorem c2_contingency_item_unchanged (base : EstimationResult)
    (a : EditableAssumptions) (i : ℕ) (hi : i < base.breakdown.length)
    (hi' : i < (applyAssumptions base a).breakdown.length)
    (hcont : catHas (base.breakdown.get ⟨i, hi⟩).category ("contingency") = true)
    (hmat : catHas (base.breakdown.get ⟨i, hi⟩).category ("material") = false)
    (hlab : catHas (base.breakdown.get ⟨i, hi⟩).category ("labor") = false)
    (hman : catHas (base.breakdown.get ⟨i, hi⟩).category ("manpower") = false)
    (heqp : catHas (base.breakdown.get ⟨i, hi⟩).category ("equipment") = false) :
    ((applyAssumptions base a).breakdown.get ⟨i, hi'⟩).cost
      = (base.breakdown.get ⟨i, hi⟩).cost := by
  show ((base.breakdown.map (adjustItem a)).get ⟨i, hi'⟩).cost = _
  simp only [List.get_eq_getElem, List.getElem_map] at *
  simp [adjustItem, hmat, hlab, hman, heqp]

/-- C2 witness: the Contingency Buffer item of contingencyBase (index 1)
keeps its cost. -/
theorem c2_contingency_item_unchanged_witness :
    ((applyAssumptions contingencyBase defaultAssumptions).breakdown.get
      ⟨1, by decide⟩).cost
      = (contingencyBase.breakdown.get ⟨1, by decide⟩).cost :=
  c2_contingency_item_unchanged contingencyBase defaultAssumptions 1
    (by decide) (by decide) (by decide) (by decide) (by decide) (by decide)
    (by decide)

/-- C3 counterexample: with totalEstimatedCost 1000 (nonnegative) and
timelineMonths 1 in [1,60], validateCashflow passes the already-length-1
cashflow through unchanged, so its month is 5 (not 1) and its amounts sum to
7 (not 1000). -/
theorem c3_normalizer_cex :
    0 ≤ passThroughBase.totalEstimatedCost ∧
    ((validateCashflow passThroughBase 1).cashflow.map (fun m => m.month))
      = [5] ∧
    sumAmounts (validateCashflow passThroughBase 1).cashflow = 7 ∧
    passThroughBase.totalEstimatedCost = 1000 ∧
    (7 : ℚ) ≠ 1000 := by
  have hpass : validateCashflow passThroughBase 1 = passThroughBase := by
    simp [validateCashflow, passThroughBase]
  refine ⟨by norm_num [passThroughBase], ?_, ?_, rfl, by norm_num⟩
  · rw [hpass]; simp [passThroughBase]
  · rw [hpass]; simp [passThroughBase, sumAmounts]

/-- C3 amended: the guarantees hold on the regeneration path: whenever the
input cashflow length differs from timelineMonths (for total at least 0 and
timelineMonths in [1,60]), validateCashflow returns exactly timelineMonths
entries numbered 1..timelineMonths contiguously whose amounts sum to the
total exactly, the rounding residual going to the last month.  When the
lengths already agree the input is returned unchanged, so only the entry
count is guaranteed. -/
theorem c3_normalizer_regen_exact (result : EstimationResult) (N : ℕ)
    (hmis : result.cashflow.length ≠ N) (h1 : 1 ≤ N) (h60 : N ≤ 60)
    (h0 : 0 ≤ result.totalEstimatedCost) :
    (validateCashflow result N).cashflow.length = N ∧
    ((validateCashflow result N).cashflow.map (fun m => m.month))
      = (List.range N).map (fun i : ℕ => (i : ℤ) + 1) ∧
    sumAmounts (validateCashflow result N).cashflow
      = result.totalEstimatedCost := by
  have hglen : (genCashflow result.totalEstimatedCost N).length = N :=
    genCashflow_length _ _
  have hgne : genCashflow result.totalEstimatedCost N ≠ [] := by
    intro h
    rw [h] at hglen
    simp at hglen
    omega
  by_cases hd : result.totalEstimatedCost
      - sumAmounts (genCashflow result.totalEstimatedCost N) = 0
  · have hout : (validateCashflow result N).cashflow
        = genCashflow result.totalEstimatedCost N := by
      simp [validateCashflow, hmis, hd]
    refine ⟨by rw [hout]; exact hglen, by rw [hout]; exact genCashflow_months _ _, ?_⟩
    rw [hout]
    linarith [hd]
  · have hout : (validateCashflow result N).cashflow
        = addToLast (result.totalEstimatedCost
            - sumAmounts (genCashflow result.totalEstimatedCost N))
          (genCashflow result.totalEstimatedCost N) := by
      simp [validateCashflow, hmis, hd]
    refine ⟨?_, ?_, ?_⟩
    · rw [hout, addToLast_length]; exact hglen
    · rw [hout, addToLast_months]; exact genCashflow_months _ _
    · rw [hout, addToLast_sum _ _ hgne]; ring

/-- C3 witness: regenerating a 2-month cashflow for an empty input cashflow. -/
theorem c3_normalizer_regen_exact_witness :
    (validateCashflow emptyCashflowBase 2).cashflow.length = 2 ∧
    ((validateCashflow emptyCashflowBase 2).cashflow.map (fun m => m.month))
      = (List.range 2).map (fun i : ℕ => (i : ℤ) + 1) ∧
    sumAmounts (validateCashflow emptyCashflowBase 2).cashflow
      = emptyCashflowBase.totalEstimatedCost :=
  c3_normalizer_regen_exact emptyCashflowBase 2 (by simp [emptyCashflowBase])
    (by norm_num) (by norm_num) (by norm_num [emptyCashflowBase])

/-- C4 (confirmed): for any base whose breakdown sums to its total and any
distinct quality tiers, the derived scenario again has
sum(breakdown costs) = totalEstimatedCost — the total is recomputed as the
sum of the adjusted items. -/
theorem c4_derived_sum_eq_total (base : EstimationResult)
    (bq tq : QualityLevel)
    (hsum : sumCost base.breakdown = base.totalEstimatedCost)
    (hne : bq ≠ tq) :
    sumCost (deriveScenarioFromBase base bq tq).breakdown
      = (deriveScenarioFromBase base bq tq).totalEstimatedCost := by
  simp [deriveScenarioFromBase, hne]

/-- C4 witness at the Standard fixture, deriving Economy. -/
theorem c4_derived_sum_eq_total_witness :
    sumCost (deriveScenarioFromBase fixtureStandard QualityLevel.STANDARD
        QualityLevel.ECONOMY).breakdown
      = (deriveScenarioFromBase fixtureStandard QualityLevel.STANDARD
        QualityLevel.ECONOMY).totalEstimatedCost :=
  c4_derived_sum_eq_total fixtureStandard QualityLevel.STANDARD
    QualityLevel.ECONOMY (by norm_num [sumCost, fixtureStandard]) (by decide)

/-- C5 (confirmed): deriving a scenario whose target quality equals the base
quality returns the base EstimationResult itself, unchanged. -/
theorem c5_derive_identity (base : EstimationResult) (q : QualityLevel) :
    deriveScenarioFromBase base q q = base := by
  simp [deriveScenarioFromBase]

/-- C6 (confirmed): for every category string, the category scaling ratio
composes transitively: ratio(Economy to Premium) = ratio(Economy to
Standard) * ratio(Standard to Premium). -/
theorem c6_ratio_composition (category : String) :
    getCategoryRatioQ QualityLevel.ECONOMY QualityLevel.PREMIUM category
      = getCategoryRatioQ QualityLevel.ECONOMY QualityLevel.STANDARD category
        * getCategoryRatioQ QualityLevel.STANDARD QualityLevel.PREMIUM
          category := by
  unfold getCategoryRatioQ
  split_ifs <;>
    norm_num [materialMult, laborMult, equipmentMult, defaultMult]

/-- C7 counterexample: on the spec's fixture, deriving Economy from Standard
gives a new total of 795000 (the sum 315000 + 240000 + 90000 + 50000 +
100000 of the adjusted items), not the claimed 745000. -/
theorem c7_fixture_total_cex :
    (deriveScenarioFromBase fixtureStandard QualityLevel.STANDARD
      QualityLevel.ECONOMY).totalEstimatedCost = 795000 ∧
    (795000 : ℚ) ≠ 745000 := by
  constructor
  · simp +decide [deriveScenarioFromBase, fixtureStandard, getCategoryRatioQ,
      materialMult, laborMult, equipmentMult, defaultMult, sumCost, jsRound]
    norm_num
  · norm_num

/-- C7 amended: on the fixture, deriving Economy yields item costs 315000
(0.7x), 240000 (0.8x), 90000 (0.9x), 50000 (permits unchanged), 100000
(contingency unchanged), total 795000 = the sum of these, and each cashflow
month rescaled by 795000/1000000 (and rounded). -/
theorem c7_fixture_economy_values :
    ((deriveScenarioFromBase fixtureStandard QualityLevel.STANDARD
        QualityLevel.ECONOMY).breakdown.map (fun i => i.cost))
      = [315000, 240000, 90000, 50000, 100000] ∧
    (deriveScenarioFromBase fixtureStandard QualityLevel.STANDARD
      QualityLevel.ECONOMY).totalEstimatedCost = 795000 ∧
    ((deriveScenarioFromBase fixtureStandard QualityLevel.STANDARD
        QualityLevel.ECONOMY).cashflow.map (fun m => m.amount))
      = (fixtureStandard.cashflow.map
        (fun m => (jsRound (m.amount * (795000 / 1000000)) : ℚ))) := by
    refine ⟨?_, ?_, ?_⟩ <;>
    · simp +decide [deriveScenarioFromBase, fixtureStandard, getCategoryRatioQ,
        materialMult, laborMult, equipmentMult, defaultMult, sumCost, jsRound]
      norm_num

/-- C8 (code bug): the base total is 0 and its single cashflow month has the
finite amount 50, yet every cashflow amount applyAssumptions returns is the
non-finite value produced by the unguarded division adjustedTotal / 0
(modelled as none) — the cashflow is not left unscaled as specified. -/
theorem c8_zero_total_cashflow_nonfinite :
    zeroTotalBase.totalEstimatedCost = 0 ∧
    (zeroTotalBase.cashflow.map (fun m => m.amount)) = [(50 : ℚ)] ∧
    ((applyAssumptions zeroTotalBase defaultAssumptions).cashflow.map
      (fun m => m.amount)) = [none] := by
  refine ⟨rfl, by simp [zeroTotalBase], ?_⟩
  simp +decide [applyAssumptions, adjustItem, zeroTotalBase,
    defaultAssumptions, sumCost]

/-- C9 counterexample: for timelineMonths = 6 the month-to-phase map is
1,2,3,4,5,5, so month 1 is the only month of phase 1 (weight 15/100), yet
the generated weight of month 1 is 3/40 = (15/100)/2, not (15/100)/1. -/
theorem c9_phase_weight_cex :
    min 5 (jsCeil ((1 : ℚ) / 6 * 5)) = 1 ∧
    min 5 (jsCeil ((2 : ℚ) / 6 * 5)) = 2 ∧
    min 5 (jsCeil ((3 : ℚ) / 6 * 5)) = 3 ∧
    min 5 (jsCeil ((4 : ℚ) / 6 * 5)) = 4 ∧
    min 5 (jsCeil ((5 : ℚ) / 6 * 5)) = 5 ∧
    min 5 (jsCeil ((6 : ℚ) / 6 * 5)) = 5 ∧
    monthPercentage 6 1 = 3/40 ∧
    (3/40 : ℚ) ≠ (15/100) / 1 := by
  refine ⟨?_, ?_, ?_, ?_, ?_, ?_, ?_, ?_⟩ <;>
    norm_num [jsCeil, min_def, monthPercentage, phasePct]

/-- C9 amended: for timelineMonths in [4,6] and months 1..timelineMonths,
each month maps to phase ceil((month/timelineMonths)*5) (the min-5 clamp is
inactive), and its pre-residual weight is that phase's table weight divided
by ceil(timelineMonths/5) — a constant divisor, not the number of months
mapped to the phase. -/
theorem c9_phase_weight_div_ceil (N m : ℕ) (h4 : 4 ≤ N) (h6 : N ≤ 6)
    (hm1 : 1 ≤ m) (hmN : m ≤ N) :
    jsCeil ((m : ℚ) / (N : ℚ) * 5) ≤ 5 ∧
    monthPercentage N m
      = phasePct (jsCeil ((m : ℚ) / (N : ℚ) * 5))
        / (jsCeil ((N : ℚ) / 5) : ℚ) := by
  interval_cases N <;> interval_cases m <;>
    constructor <;>
    norm_num [monthPercentage, phasePct, jsCeil, min_def]

/-- C9 witness at timelineMonths 6, month 1. -/
theorem c9_phase_weight_div_ceil_witness :
    jsCeil (((1 : ℕ) : ℚ) / ((6 : ℕ) : ℚ) * 5) ≤ 5 ∧
    monthPercentage 6 1
      = phasePct (jsCeil (((1 : ℕ) : ℚ) / ((6 : ℕ) : ℚ) * 5))
        / (jsCeil (((6 : ℕ) : ℚ) / 5) : ℚ) :=
  c9_phase_weight_div_ceil 6 1 (by norm_num) (by norm_num) (by norm_num)
    (by norm_num)

/-- C10 (confirmed): with an empty breakdown, applyAssumptions keeps the
breakdown empty and multiplies the base total by materialCostMultiplier *
laborRateMultiplier * equipmentCostMultiplier * (1 +
contingencyPercentage/100). -/
theorem c10_empty_breakdown_compounds (base : EstimationResult)
    (a : EditableAssumptions) (hb : base.breakdown = []) :
    (applyAssumptions base a).breakdown = [] ∧
    (applyAssumptions base a).totalEstimatedCost
      = base.totalEstimatedCost * a.materialCostMultiplier
        * a.laborRateMultiplier * a.equipmentCostMultiplier
        * (1 + a.contingencyPercentage / 100) := by
  constructor
  · simp [applyAssumptions, hb]
  · have htot : (applyAssumptions base a).totalEstimatedCost
        = (base.totalEstimatedCost * (a.materialCostMultiplier
          * a.laborRateMultiplier * a.equipmentCostMultiplier))
          * (1 + a.contingencyPercentage / 100) := by
      simp [applyAssumptions, hb]
    rw [htot]
    ring

/-- C10 witness at a base with empty breakdown and total 100. -/
theorem c10_empty_breakdown_compounds_witness :
    (applyAssumptions emptyCashflowBase defaultAssumptions).breakdown = [] ∧
    (applyAssumptions emptyCashflowBase defaultAssumptions).totalEstimatedCost
      = emptyCashflowBase.totalEstimatedCost
        * defaultAssumptions.materialCostMultiplier
        * defaultAssumptions.laborRateMultiplier
        * defaultAssumptions.equipmentCostMultiplier
        * (1 + defaultAssumptions.contingencyPercentage / 100) :=
  c10_empty_breakdown_compounds emptyCashflowBase defaultAssumptions rfl

end Predicto
